import Mathlib

/-!
Verification of the wingz ride API core: the ride-listing query engine with
geospatial distance ranking and time-windowed event prefetch, the ride
validation rules, and the append-event operation.

The definitions below are a shallow embedding of the Python source under
`rides/views.py`, `rides/serializers.py` and `rides/models.py`:

- timestamps are modelled as integers (seconds); `timedelta(hours=24)` is
  86400 seconds and `timedelta(minutes=5)` is 300 seconds;
- coordinate values are modelled as rationals (the NaN and infinity float
  payloads are outside this model; the range checks on finite values are
  embedded exactly);
- the database result order of a query with no ORDER BY clause is modelled
  as the storage order of the event list;
- Python truthiness, where it affects control flow in the source
  (`all([...])` over coordinate values, `if pickup_time:`, `if lat and lon:`),
  is embedded explicitly.
-/

namespace Wingz

/-- A row of the `ride_event` table (`rides/models.py`, class `RideEvent`):
`id` auto primary key, `ride` foreign key, `description` of length at most
255, `created_at` server-assigned timestamp. -/
structure RideEvent where
  id : Nat
  ride : Nat
  description : String
  created_at : Int
deriving DecidableEq, Repr

/-- A row of the `ride` table (`rides/models.py`, class `Ride`). -/
structure Ride where
  id : Nat
  status : String
  rider : Nat
  driver : Nat
  pickup_latitude : ℚ
  pickup_longitude : ℚ
  dropoff_latitude : ℚ
  dropoff_longitude : ℚ
  pickup_time : Int
deriving DecidableEq, Repr

/-- The relational store visible to the ride views: the ride rows, the ride
event rows in storage order, and the next auto-assigned event primary key. -/
structure Store where
  rides : List Ride
  events : List RideEvent
  next_event_id : Nat
deriving DecidableEq, Repr

/-- `timedelta(hours=24)` in seconds. -/
def twentyFourHours : Int := 86400

/-- The boolean comparator `-created_at` (newest first): the prefetched
event queryset in `RideViewSet.get_queryset` is ordered by
`order_by("-created_at")`. -/
def eventDescLe (a b : RideEvent) : Bool := decide (b.created_at ≤ a.created_at)

/-- The list-context event set of one ride (`RideViewSet.get_queryset`,
list branch): the prefetch queryset
`RideEvent.objects.filter(created_at__gte=twenty_four_hours_ago).order_by("-created_at")`
restricted to the events of the ride, where
`twenty_four_hours_ago = now - timedelta(hours=24)`. -/
def listContextEvents (now : Int) (st : Store) (rid : Nat) : List RideEvent :=
  (st.events.filter
    (fun e => e.ride == rid && decide (now - twentyFourHours ≤ e.created_at))).mergeSort
    eventDescLe

/-- The detail-context event set of one ride (`RideViewSet.get_queryset`,
retrieve branch): `queryset.prefetch_related("events")` with no window filter
and no ORDER BY clause, so the rows come back in storage order. -/
def detailContextEvents (st : Store) (rid : Nat) : List RideEvent :=
  st.events.filter (fun e => e.ride == rid)

/-- The list endpoint payload: each ride paired with its windowed events.
The instant `now` is captured once in `RideViewSet.get_queryset` before the
per-ride prefetch, so every ride of one response shares the same cutoff. -/
def rideList (now : Int) (st : Store) : List (Ride × List RideEvent) :=
  st.rides.map (fun r => (r, listContextEvents now st r.id))

/-- The event cap constant `MAX_EVENTS_PER_RIDE` in `RideViewSet.add_event`. -/
def MAX_EVENTS_PER_RIDE : Nat := 1000

/-- The value of `ride.events.count()` for the ride `pk`. -/
def rideEventCount (st : Store) (pk : Nat) : Nat :=
  (st.events.filter (fun e => e.ride == pk)).length

/-- The possible outcomes of the `add_event` action. `notFound` is the
not-found response kind of the HTTP boundary (produced for a missing ride by
`RideEventViewSet.retrieve`); `serverErrorDoesNotExist` is an unhandled
`Ride.DoesNotExist` exception escaping the view, which the framework turns
into a server-error response, not a not-found response. -/
inductive AddEventResponse where
  | created (e : RideEvent)
  | capacityExceeded
  | validationError
  | notFound
  | serverErrorDoesNotExist
deriving DecidableEq, Repr

/-- True exactly on the `created` outcome (HTTP 201). -/
def AddEventResponse.isCreated : AddEventResponse → Bool
  | .created _ => true
  | _ => false

/-- Python `str.strip()` as the serializer applies it to the description:
whitespace dropped from both ends. -/
def pyStrip (s : String) : String :=
  ⟨((s.data.dropWhile Char.isWhitespace).reverse.dropWhile
      Char.isWhitespace).reverse⟩

/-- The `RideViewSet.add_event` action. Control flow of the source:
`Ride.objects.select_for_update().get(pk=pk)` raises `Ride.DoesNotExist`
when the ride is missing (there is no try/except around it, so the
exception escapes the view); then the count of the events of the ride is
compared against `MAX_EVENTS_PER_RIDE`; then `RideEventSerializer` is run
on `data = (ride := ride.id, description := request.data.get("description"))`
— the `ride` value of the request body is never read. The serializer
requires a description that is non-blank after trimming and of length at
most 255, stores the trimmed value, and assigns `created_at` and the next
primary key on save. The whole action runs inside one transaction. -/
def add_event (st : Store) (pk : Nat) (body_ride : Option Nat)
    (description : Option String) (now : Int) : AddEventResponse × Store :=
  match st.rides.find? (fun r => r.id == pk) with
  | none => (.serverErrorDoesNotExist, st)
  | some ride =>
    if MAX_EVENTS_PER_RIDE ≤ rideEventCount st ride.id then
      (.capacityExceeded, st)
    else
      match description with
      | none => (.validationError, st)
      | some d =>
        if pyStrip d = "" ∨ 255 < (pyStrip d).length then (.validationError, st)
        else
          let e : RideEvent := ⟨st.next_event_id, ride.id, pyStrip d, now⟩
          (.created e,
            { st with events := st.events ++ [e],
                      next_event_id := st.next_event_id + 1 })

/-- A user row as seen by `RideDetailSerializer._validate_user_roles`:
only the primary key and the role string are consulted. -/
structure UserRec where
  id : Nat
  role : String
deriving DecidableEq, Repr

/-- The incoming change set of a ride create or update
(`RideDetailSerializer.validate`, argument `data`): a field is `none` when
absent from the change set. -/
structure RideData where
  rider : Option UserRec
  driver : Option UserRec
  pickup_latitude : Option ℚ
  pickup_longitude : Option ℚ
  dropoff_latitude : Option ℚ
  dropoff_longitude : Option ℚ
  pickup_time : Option Int
deriving DecidableEq, Repr

/-- A stored ride record as read through `self.instance` during an update:
every field is present. -/
structure RideRec where
  rider : UserRec
  driver : UserRec
  pickup_latitude : ℚ
  pickup_longitude : ℚ
  dropoff_latitude : ℚ
  dropoff_longitude : ℚ
  pickup_time : Int
deriving DecidableEq, Repr

/-- The validation errors raised in `RideDetailSerializer`. -/
inductive VErr where
  | coordRange (field : String)
  | sameLocation
  | sameRiderDriver
  | riderRole
  | driverRole
  | pastPickupTime
deriving DecidableEq, Repr

/-- `RideDetailSerializer._validate_coordinate`: the range check on one
coordinate value present in the change set (the NaN and infinity branches
have no rational inhabitant). -/
def coordRangeErr (field : String) (lo hi : ℚ) : Option ℚ → Option VErr
  | none => none
  | some v => if lo ≤ v ∧ v ≤ hi then none else some (.coordRange field)

/-- `RideDetailSerializer._validate_coordinates`: range checks run only on
the fields present in the incoming change set, latitudes first. -/
def validateCoordinatesErr (d : RideData) : Option VErr :=
  (coordRangeErr "pickup_latitude" (-90) 90 d.pickup_latitude).orElse fun _ =>
  (coordRangeErr "dropoff_latitude" (-90) 90 d.dropoff_latitude).orElse fun _ =>
  (coordRangeErr "pickup_longitude" (-180) 180 d.pickup_longitude).orElse fun _ =>
  coordRangeErr "dropoff_longitude" (-180) 180 d.dropoff_longitude

/-- Python `abs` on a rational value. -/
def pyAbs (q : ℚ) : ℚ := if q < 0 then -q else q

/-- `RideDetailSerializer._validate_location_difference`. The guard in the
source is `if all([pickup_lat, pickup_lon, dropoff_lat, dropoff_lon])`,
which is Python truthiness: it is false not only when a value is `None`
but also when a value is the float `0.0`, so a coordinate equal to zero
disables the whole check. The tolerance comparison is strict:
`lat_diff < 0.00001 and lon_diff < 0.00001`. -/
def locationDifferenceErr :
    Option ℚ → Option ℚ → Option ℚ → Option ℚ → Option VErr
  | some plat, some plon, some dlat, some dlon =>
    if plat ≠ 0 ∧ plon ≠ 0 ∧ dlat ≠ 0 ∧ dlon ≠ 0 ∧
        pyAbs (plat - dlat) < 1 / 100000 ∧ pyAbs (plon - dlon) < 1 / 100000 then
      some .sameLocation
    else none
  | _, _, _, _ => none

/-- `RideDetailSerializer._validate_user_roles`: distinctness of rider and
driver (when both are known), then the role of each referenced user. -/
def userRolesErr : Option UserRec → Option UserRec → Option VErr
  | some r, some d =>
    if r.id = d.id then some .sameRiderDriver
    else if r.role ≠ "rider" then some .riderRole
    else if d.role ≠ "driver" then some .driverRole
    else none
  | some r, none => if r.role ≠ "rider" then some .riderRole else none
  | none, some d => if d.role ≠ "driver" then some .driverRole else none
  | none, none => none

/-- `timedelta(minutes=5)` in seconds. -/
def fiveMinutes : Int := 300

/-- The pickup-time recency check at the end of
`RideDetailSerializer.validate`: when a merged pickup time is known, reject
it when it lies more than five minutes before the validation instant
(`buffer_time = timezone.now() - timedelta(minutes=5)`). -/
def pickupTimeErr (t : Option Int) (now : Int) : Option VErr :=
  match t with
  | some t => if t < now - fiveMinutes then some .pastPickupTime else none
  | none => none

/-- `RideDetailSerializer.validate`: each field is merged as
`data.get(field, getattr(self.instance, field, None))`, then the checks run
in source order — coordinate ranges on the change set alone, location
difference, user roles, and the pickup-time recency check on merged
values. The first raised error aborts validation; `none` means accepted. -/
def rideValidate (d : RideData) (inst : Option RideRec) (now : Int) :
    Option VErr :=
  let rider := d.rider.orElse fun _ => inst.map (·.rider)
  let driver := d.driver.orElse fun _ => inst.map (·.driver)
  let pickup_lat := d.pickup_latitude.orElse fun _ => inst.map (·.pickup_latitude)
  let pickup_lon := d.pickup_longitude.orElse fun _ => inst.map (·.pickup_longitude)
  let dropoff_lat := d.dropoff_latitude.orElse fun _ => inst.map (·.dropoff_latitude)
  let dropoff_lon := d.dropoff_longitude.orElse fun _ => inst.map (·.dropoff_longitude)
  let pickup_time := d.pickup_time.orElse fun _ => inst.map (·.pickup_time)
  (validateCoordinatesErr d).orElse fun _ =>
  (locationDifferenceErr pickup_lat pickup_lon dropoff_lat dropoff_lon).orElse fun _ =>
  (userRolesErr rider driver).orElse fun _ =>
  pickupTimeErr pickup_time now

/-- The change set of a full create carrying every field of a record. -/
def dataOfRecord (r : RideRec) : RideData :=
  ⟨some r.rider, some r.driver, some r.pickup_latitude, some r.pickup_longitude,
   some r.dropoff_latitude, some r.dropoff_longitude, some r.pickup_time⟩

/-- The change set of a partial update touching only `status`: none of the
validated fields is present. -/
def statusOnlyData : RideData :=
  ⟨none, none, none, none, none, none, none⟩

/-- Responses of the read actions of `RideEventViewSet`. -/
inductive EventReadResponse where
  | ok (events : List RideEvent)
  | badRequest (msg : String)
  | notFound (msg : String)
deriving DecidableEq, Repr

/-- `RideEventViewSet.retrieve`: checks the ride exists (404 otherwise),
then returns all events of the ride ordered by `-created_at`. -/
def rideEventRetrieve (st : Store) (ride_id : Nat) : EventReadResponse :=
  if st.rides.any (fun r => r.id == ride_id) then
    .ok ((st.events.filter (fun e => e.ride == ride_id)).mergeSort eventDescLe)
  else
    .notFound "Ride with the given id does not exist."

/-- `RideEventViewSet.list`: unconditionally returns an HTTP 400 response
with an explanatory message; the stored events are never consulted. -/
def rideEventList (st : Store) : EventReadResponse :=
  .badRequest "Listing all ride events is not supported for performance reasons. Please use the ride-events retrieve endpoint with a ride id to get all events for a specific ride."

/-- A concrete ride used as a test fixture (rider 1, driver 2, pickup
(1, 10), dropoff (2, 11), pickup time 0). -/
def sampleRide : Ride := ⟨1, "requested", 1, 2, 1, 10, 2, 11, 0⟩

/-- A store holding only `sampleRide` and no events. -/
def sampleStore : Store := ⟨[sampleRide], [], 5⟩

/-- A fixture event of ride 1, created at time 10. -/
def ev1 : RideEvent := ⟨1, 1, "older", 10⟩

/-- A fixture event of ride 1, created at time 20. -/
def ev2 : RideEvent := ⟨2, 1, "newer", 20⟩

/-- A store holding `sampleRide` and the two fixture events in storage
order oldest first. -/
def eventStore : Store := ⟨[sampleRide], [ev1, ev2], 3⟩

/-- A stored ride record fixture matching `sampleRide`: valid roles,
distinct users, distinct coordinates, pickup time 0. -/
def sampleRideRec : RideRec := ⟨⟨1, "rider"⟩, ⟨2, "driver"⟩, 1, 10, 2, 11, 0⟩

/-- The fate of one optional geolocation query parameter as the source
branches on it: `absent` when the parameter is missing or the empty string
(falsy in `if lat and lon:`), `invalid` when `float(...)` raises
`ValueError`, `value q` when it parses as a finite number. -/
inductive ParseOutcome where
  | absent
  | invalid
  | value (q : ℚ)
deriving DecidableEq, Repr

/-- The query parameters that drive the ordering of the ride list. -/
structure ListQueryParams where
  ordering : Option String
  latitude : ParseOutcome
  longitude : ParseOutcome
deriving DecidableEq, Repr

/-- The row order of a ride queryset. `none` means no ORDER BY clause at
all: neither the model nor the base queryset declares an ordering, so the
rows come back in an order the database does not promise. -/
inductive RideOrdering where
  | pickupTimeAsc
  | pickupTimeDesc
  | distanceAsc
  | distanceDesc
deriving DecidableEq, Repr

/-- True when the request names a distance ordering: the membership test
`ordering_param in ["distance", "-distance", "distance_to_pickup",
"-distance_to_pickup"]` of `RideViewSet.filter_queryset`. -/
def isDistanceOrderingParam : Option String → Bool
  | some s =>
    s == "distance" || s == "-distance" || s == "distance_to_pickup" ||
      s == "-distance_to_pickup"
  | none => false

/-- The ordering applied inside `RideViewSet.get_queryset` (list branch).
The block runs only when both geolocation parameters are truthy; if either
`float(...)` raises, the bare `except ... pass` drops both the annotation
and the ordering; otherwise `order_by` on the distance annotation is
applied exactly when the ordering parameter names a distance ordering. -/
def getQuerysetOrdering (p : ListQueryParams) : Option RideOrdering :=
  match p.latitude, p.longitude with
  | .value _, .value _ =>
    if p.ordering = some "distance" ∨ p.ordering = some "distance_to_pickup" then
      some .distanceAsc
    else if p.ordering = some "-distance" ∨ p.ordering = some "-distance_to_pickup" then
      some .distanceDesc
    else none
  | _, _ => none

/-- `RideViewSet.filter_queryset`: when the ordering parameter names a
distance ordering, only `DjangoFilterBackend` runs and the queryset order
is left as `get_queryset` produced it; otherwise the default backends run,
and `OrderingFilter` (with `ordering_fields = [pickup_time]` and default
`ordering = [-pickup_time]`) overrides the order: `pickup_time` ascending,
`-pickup_time` descending, anything else or absent falls back to the
default `-pickup_time`. (Comma-separated multi-field ordering values are
outside this model; the source never matches them as distance orderings.) -/
def filterQuerysetOrdering (p : ListQueryParams) (qsOrder : Option RideOrdering) :
    Option RideOrdering :=
  if isDistanceOrderingParam p.ordering then qsOrder
  else if p.ordering = some "pickup_time" then some .pickupTimeAsc
  else if p.ordering = some "-pickup_time" then some .pickupTimeDesc
  else some .pickupTimeDesc

/-- The order of the rows of one list response: `get_queryset` composed
with `filter_queryset`. -/
def effectiveOrdering (p : ListQueryParams) : Option RideOrdering :=
  filterQuerysetOrdering p (getQuerysetOrdering p)

/-- Modelled from the amended reading of the spec: the ordering the code
actually produces, stated flatly. A non-distance ordering parameter always
yields a pickup-time order (the default being descending); a distance
ordering parameter yields the requested distance order when both
geolocation parameters parse, and otherwise leaves the queryset with no
ordering at all. -/
def orderingSpec (p : ListQueryParams) : Option RideOrdering :=
  if isDistanceOrderingParam p.ordering then
    match p.latitude, p.longitude with
    | .value _, .value _ =>
      if p.ordering = some "distance" ∨ p.ordering = some "distance_to_pickup" then
        some .distanceAsc
      else some .distanceDesc
    | _, _ => none
  else if p.ordering = some "pickup_time" then some .pickupTimeAsc
  else some .pickupTimeDesc

/-- The abstract syntax of the SQL expression built by the Django ORM
combinators in `RideViewSet.get_queryset` (the `distance_to_pickup`
annotation). `queryLat` and `queryLon` stand for the parsed query
parameters, `pickupLat` and `pickupLon` for `F("pickup_latitude")` and
`F("pickup_longitude")`. `least` and `greatest` are the SQL clamping
combinators that a clamped formula would use; the source builds none. -/
inductive SqlExpr where
  | const (q : ℚ)
  | queryLat
  | queryLon
  | pickupLat
  | pickupLon
  | radians (e : SqlExpr)
  | cos (e : SqlExpr)
  | sin (e : SqlExpr)
  | acos (e : SqlExpr)
  | add (a b : SqlExpr)
  | sub (a b : SqlExpr)
  | mul (a b : SqlExpr)
  | least (a b : SqlExpr)
  | greatest (a b : SqlExpr)
deriving DecidableEq, Repr

/-- The argument handed to `ACos` in the annotation of
`RideViewSet.get_queryset`:
`Cos(Radians(lat)) * Cos(Radians(F(pickup_latitude))) *
 Cos(Radians(F(pickup_longitude)) - Radians(lon)) +
 Sin(Radians(lat)) * Sin(Radians(F(pickup_latitude)))`,
with Python left associativity of `*`. -/
def acosArgExpr : SqlExpr :=
  .add
    (.mul
      (.mul (.cos (.radians .queryLat)) (.cos (.radians .pickupLat)))
      (.cos (.sub (.radians .pickupLon) (.radians .queryLon))))
    (.mul (.sin (.radians .queryLat)) (.sin (.radians .pickupLat)))

/-- The full `distance_to_pickup` annotation: `6371 * ACos(...)`. -/
def distance_to_pickup_expr : SqlExpr :=
  .mul (.const 6371) (.acos acosArgExpr)

/-- True when every `acos` node of the expression receives a clamping
combinator (`least` or `greatest`) as its immediate argument. -/
def acosArgsClamped : SqlExpr → Bool
  | .const _ | .queryLat | .queryLon | .pickupLat | .pickupLon => true
  | .radians e | .cos e | .sin e => acosArgsClamped e
  | .acos e =>
    (match e with
     | .least _ _ => true
     | .greatest _ _ => true
     | _ => false) && acosArgsClamped e
  | .add a b | .sub a b | .mul a b | .least a b | .greatest a b =>
    acosArgsClamped a && acosArgsClamped b

/-- Evaluation of the SQL expression over the reals, at query point
`(lat, lon)` and ride pickup point `(plat, plon)`. `Radians` multiplies by
pi over 180; `ACos`, `Cos`, `Sin` are the real functions; `Least` and
`Greatest` are min and max. -/
noncomputable def SqlExpr.evalAt (lat lon plat plon : ℝ) : SqlExpr → ℝ
  | .const q => (q : ℝ)
  | .queryLat => lat
  | .queryLon => lon
  | .pickupLat => plat
  | .pickupLon => plon
  | .radians e => e.evalAt lat lon plat plon * Real.pi / 180
  | .cos e => Real.cos (e.evalAt lat lon plat plon)
  | .sin e => Real.sin (e.evalAt lat lon plat plon)
  | .acos e => Real.arccos (e.evalAt lat lon plat plon)
  | .add a b => a.evalAt lat lon plat plon + b.evalAt lat lon plat plon
  | .sub a b => a.evalAt lat lon plat plon - b.evalAt lat lon plat plon
  | .mul a b => a.evalAt lat lon plat plon * b.evalAt lat lon plat plon
  | .least a b => min (a.evalAt lat lon plat plon) (b.evalAt lat lon plat plon)
  | .greatest a b => max (a.evalAt lat lon plat plon) (b.evalAt lat lon plat plon)

theorem orElse_eq_none_iff {α : Type} (a : Option α) (f : Unit → Option α) :
    Option.orElse a f = none ↔ a = none ∧ f () = none := by
  cases a <;> simp [Option.orElse]

theorem someOrElse {α : Type} (a : α) (f : Unit → Option α) :
    Option.orElse (some a) f = some a := rfl

theorem noneOrElse {α : Type} (f : Unit → Option α) :
    Option.orElse none f = f () := rfl

/-- C1 counterexample: the `distance_to_pickup` annotation does not clamp
the argument of arccosine — no `Least` or `Greatest` combinator guards the
`ACos` node the source builds. -/
theorem distance_expr_not_clamped :
    acosArgsClamped distance_to_pickup_expr = false := by decide

/-- C3 counterexample: with `ordering=distance` and an unparseable
longitude, the query does not fall back to the default `-pickup_time`
ordering — `filter_queryset` skips the ordering backend for distance
parameters and `get_queryset` dropped the distance ordering, so the
queryset is left with no ordering at all. -/
theorem distance_ordering_without_coords_unordered :
    effectiveOrdering ⟨some "distance", .value 37, .invalid⟩ = none ∧
    effectiveOrdering ⟨some "distance", .value 37, .invalid⟩ ≠
      some RideOrdering.pickupTimeDesc := by
  constructor <;> decide

/-- C4 counterexample: `sampleRideRec` passes full validation at instant 0,
yet the status-only change set against the stored record is rejected at
instant 1000, because the pickup-time recency check is re-evaluated against
the fresh validation instant. -/
theorem status_only_update_rejected_on_stale_pickup_time :
    rideValidate (dataOfRecord sampleRideRec) none 0 = none ∧
    rideValidate statusOnlyData (some sampleRideRec) 1000 =
      some VErr.pastPickupTime := by
  constructor <;>
    norm_num [rideValidate, dataOfRecord, statusOnlyData, sampleRideRec,
      validateCoordinatesErr, coordRangeErr, locationDifferenceErr,
      userRolesErr, pickupTimeErr, pyAbs, fiveMinutes, Option.orElse]

/-- C6: the location-difference check is skipped whenever a coordinate
value is the float zero, because the guard `all([...])` tests Python
truthiness rather than presence. Identical pickup and dropoff points on
the equator are accepted, while the same configuration shifted to
latitude 1 is rejected. -/
theorem location_difference_zero_coordinate_skipped :
    locationDifferenceErr (some 0) (some 10) (some 0) (some 10) = none ∧
    locationDifferenceErr (some 1) (some 10) (some 1) (some 10) =
      some VErr.sameLocation := by
  constructor <;> norm_num [locationDifferenceErr, pyAbs]

/-- C7 counterexample: the detail-context event set of ride 1 in
`eventStore` comes back in storage order (oldest first), so it is not
ordered newest-first by creation time. -/
theorem detail_events_not_sorted :
    ¬ List.Pairwise (fun a b => b.created_at ≤ a.created_at)
        (detailContextEvents eventStore 1) := by decide

/-- C8: an append-event request naming a missing ride id performs no write,
but the `Ride.DoesNotExist` raised by the unguarded
`Ride.objects.select_for_update().get(pk=pk)` escapes the view as an
unhandled exception (a server-error response), which is not the not-found
response kind. -/
theorem add_event_missing_ride_server_error :
    add_event sampleStore 2 none (some "desc") 0 =
      (.serverErrorDoesNotExist, sampleStore) ∧
    AddEventResponse.serverErrorDoesNotExist ≠ AddEventResponse.notFound := by
  constructor <;> decide

/-- C10: the collection-level list action of `RideEventViewSet` always
answers with a bad-request error and never returns event data, whatever
the store holds; the per-ride retrieve action is the read path that does
return the events of an existing ride. -/
theorem ride_event_list_disabled (st : Store) :
    (∃ msg, rideEventList st = EventReadResponse.badRequest msg) ∧
    (∀ evs, rideEventList st ≠ EventReadResponse.ok evs) ∧
    (∀ rid, st.rides.any (fun r => r.id == rid) = true →
      ∃ evs, rideEventRetrieve st rid = EventReadResponse.ok evs) := by
  refine ⟨⟨_, rfl⟩, ?_, ?_⟩
  · intro evs h
    simp [rideEventList] at h
  · intro rid hr
    simp only [rideEventRetrieve, hr, if_true]
    exact ⟨_, rfl⟩

/-- Closed instance of the C10 theorem: retrieving the events of ride 1 of
`sampleStore` yields an ok response. -/
theorem ride_event_list_disabled_witness :
    ∃ evs, rideEventRetrieve sampleStore 1 = EventReadResponse.ok evs :=
  (ride_event_list_disabled sampleStore).2.2 1 (by decide)

theorem eventDescLe_trans (a b c : RideEvent) :
    eventDescLe a b = true → eventDescLe b c = true → eventDescLe a c = true := by
  simp only [eventDescLe, decide_eq_true_eq]
  omega

theorem eventDescLe_total (a b : RideEvent) :
    (eventDescLe a b || eventDescLe b a) = true := by
  simp only [eventDescLe, Bool.or_eq_true, decide_eq_true_eq]
  omega

/-- C2: the list-context event set of a ride holds exactly the events of
that ride created within the trailing 24-hour window from the shared
instant `now`, ordered by creation time descending; it is contained in the
detail-context event set of the same ride; and every ride of one list
response is paired with the window computed from the same `now`. -/
theorem list_context_events_windowed (now : Int) (st : Store) (rid : Nat) :
    (∀ e, e ∈ listContextEvents now st rid ↔
      (e ∈ st.events ∧ e.ride = rid ∧ now - twentyFourHours ≤ e.created_at)) ∧
    List.Pairwise (fun a b => b.created_at ≤ a.created_at)
      (listContextEvents now st rid) ∧
    (∀ e, e ∈ listContextEvents now st rid → e ∈ detailContextEvents st rid) ∧
    (∀ pr ∈ rideList now st, pr.2 = listContextEvents now st pr.1.id) := by
  have hmem : ∀ e, e ∈ listContextEvents now st rid ↔
      (e ∈ st.events ∧ e.ride = rid ∧ now - twentyFourHours ≤ e.created_at) := by
    intro e
    simp [listContextEvents, List.mem_mergeSort, List.mem_filter, and_assoc]
  refine ⟨hmem, ?_, ?_, ?_⟩
  · have hs := List.sorted_mergeSort eventDescLe_trans eventDescLe_total
      (st.events.filter
        (fun e => e.ride == rid && decide (now - twentyFourHours ≤ e.created_at)))
    exact hs.imp (by simp only [eventDescLe, decide_eq_true_eq]; exact fun h => h)
  · intro e he
    have h := (hmem e).mp he
    simp [detailContextEvents, List.mem_filter, h.1, h.2.1]
  · intro pr hpr
    simp only [rideList, List.mem_map] at hpr
    obtain ⟨r, _, rfl⟩ := hpr
    rfl

/-- Closed instance of the C2 theorem: the newer fixture event lies in the
list-context window of ride 1 at instant 100 and therefore also in the
detail-context set. -/
theorem list_context_events_windowed_witness :
    ev2 ∈ listContextEvents 100 eventStore 1 ∧
    ev2 ∈ detailContextEvents eventStore 1 := by
  have h := list_context_events_windowed 100 eventStore 1
  have h2 : ev2 ∈ listContextEvents 100 eventStore 1 :=
    (h.1 ev2).mpr (by decide)
  exact ⟨h2, h.2.2.1 ev2 h2⟩

/-- C7 amended: the detail-context event set of a ride holds exactly the
events of that ride — the full history, with no 24-hour window — and comes
back as a sublist of the stored event sequence, in storage order, with no
reordering applied. -/
theorem detail_events_full_history (st : Store) (rid : Nat) :
    (∀ e, e ∈ detailContextEvents st rid ↔ (e ∈ st.events ∧ e.ride = rid)) ∧
    (detailContextEvents st rid).Sublist st.events := by
  constructor
  · intro e
    simp [detailContextEvents, List.mem_filter]
  · exact List.filter_sublist _

/-- C5: under a found ride and a valid description, an append below the cap
creates an event and raises the event count of the ride by one, an append
at or above the cap is rejected with the capacity error and leaves the
store untouched, and any rejected append leaves the store untouched. -/
theorem add_event_cap_behavior (st : Store) (pk : Nat) (b : Option Nat)
    (d : String) (now : Int)
    (hride : (st.rides.find? (fun r => r.id == pk)).isSome = true)
    (hdesc : ¬(pyStrip d = "" ∨ 255 < (pyStrip d).length)) :
    (rideEventCount st pk < MAX_EVENTS_PER_RIDE →
      (add_event st pk b (some d) now).1.isCreated = true ∧
      rideEventCount (add_event st pk b (some d) now).2 pk =
        rideEventCount st pk + 1) ∧
    (MAX_EVENTS_PER_RIDE ≤ rideEventCount st pk →
      add_event st pk b (some d) now = (.capacityExceeded, st)) ∧
    ((add_event st pk b (some d) now).1.isCreated = false →
      (add_event st pk b (some d) now).2 = st) := by
  obtain ⟨ride, hfind⟩ := Option.isSome_iff_exists.mp hride
  have hid : ride.id = pk := by simpa using List.find?_some hfind
  subst hid
  simp only [add_event, hfind]
  by_cases hc : MAX_EVENTS_PER_RIDE ≤ rideEventCount st ride.id
  · rw [if_pos hc]
    exact ⟨fun hlt => absurd hc (by omega), fun _ => rfl, fun _ => rfl⟩
  · rw [if_neg hc, if_neg hdesc]
    refine ⟨fun _ => ⟨rfl, ?_⟩, fun hge => absurd hge hc,
      fun habs => by simp [AddEventResponse.isCreated] at habs⟩
    simp [rideEventCount, List.filter_append]

/-- Closed instance of the C5 theorem: appending a valid event to ride 1 of
`sampleStore` (count 0, below the cap) succeeds. -/
theorem add_event_cap_behavior_witness :
    (add_event sampleStore 1 none (some "Passenger picked up") 0).1.isCreated
      = true := by
  have h := add_event_cap_behavior sampleStore 1 none "Passenger picked up" 0
    (by decide) (by decide)
  exact (h.1 (by decide)).1

/-- C9: the outcome of `add_event` never depends on a `ride` value carried
by the request body, and a created event always references the ride id
taken from the request URL. -/
theorem add_event_uses_url_ride_id (st : Store) (pk : Nat) (b b2 : Option Nat)
    (d : Option String) (now : Int) :
    add_event st pk b d now = add_event st pk b2 d now ∧
    (∀ e st2, add_event st pk b d now = (.created e, st2) → e.ride = pk) := by
  refine ⟨rfl, ?_⟩
  intro e st2 h
  cases hfind : st.rides.find? (fun r => r.id == pk) with
  | none =>
    simp only [add_event, hfind] at h
    simp at h
  | some ride =>
    simp only [add_event, hfind] at h
    have hid : ride.id = pk := by simpa using List.find?_some hfind
    by_cases hc : MAX_EVENTS_PER_RIDE ≤ rideEventCount st ride.id
    · rw [if_pos hc] at h
      simp at h
    · rw [if_neg hc] at h
      cases d with
      | none => simp at h
      | some dd =>
        dsimp only at h
        by_cases hv : pyStrip dd = "" ∨ 255 < (pyStrip dd).length
        · rw [if_pos hv] at h
          simp at h
        · rw [if_neg hv] at h
          simp only [Prod.mk.injEq] at h
          obtain ⟨he, _⟩ := h
          injection he with he2
          subst he2
          exact hid

/-- Closed instance of the C9 theorem: the event created on ride 1 of
`sampleStore` references ride 1 even though the body named ride 99. -/
theorem add_event_uses_url_ride_id_witness :
    (RideEvent.mk 5 1 "x" 0).ride = 1 :=
  (add_event_uses_url_ride_id sampleStore 1 (some 99) none (some "x") 0).2
    (RideEvent.mk 5 1 "x" 0)
    ⟨[sampleRide], [RideEvent.mk 5 1 "x" 0], 6⟩ (by decide)

theorem cos_combination_bounds (a p d : ℝ) :
    -1 ≤ Real.cos a * Real.cos p * Real.cos d + Real.sin a * Real.sin p ∧
    Real.cos a * Real.cos p * Real.cos d + Real.sin a * Real.sin p ≤ 1 := by
  have h1 : Real.cos a * Real.cos p + Real.sin a * Real.sin p ≤ 1 := by
    rw [← Real.cos_sub]; exact Real.cos_le_one _
  have h2 : -1 ≤ Real.cos a * Real.cos p + Real.sin a * Real.sin p := by
    rw [← Real.cos_sub]; exact Real.neg_one_le_cos _
  have h3 : Real.cos a * Real.cos p - Real.sin a * Real.sin p ≤ 1 := by
    rw [← Real.cos_add]; exact Real.cos_le_one _
  have h4 : -1 ≤ Real.cos a * Real.cos p - Real.sin a * Real.sin p := by
    rw [← Real.cos_add]; exact Real.neg_one_le_cos _
  have hx1 : Real.cos d ≤ 1 := Real.cos_le_one _
  have hx2 : -1 ≤ Real.cos d := Real.neg_one_le_cos _
  constructor
  · nlinarith [mul_nonneg (by linarith : (0:ℝ) ≤ 1 + Real.cos d)
        (by linarith : (0:ℝ) ≤ 1 + (Real.cos a * Real.cos p + Real.sin a * Real.sin p)),
      mul_nonneg (by linarith : (0:ℝ) ≤ 1 - Real.cos d)
        (by linarith : (0:ℝ) ≤ 1 + (Real.sin a * Real.sin p - Real.cos a * Real.cos p))]
  · nlinarith [mul_nonneg (by linarith : (0:ℝ) ≤ 1 + Real.cos d)
        (by linarith : (0:ℝ) ≤ 1 - (Real.cos a * Real.cos p + Real.sin a * Real.sin p)),
      mul_nonneg (by linarith : (0:ℝ) ≤ 1 - Real.cos d)
        (by linarith : (0:ℝ) ≤ 1 - (Real.sin a * Real.sin p - Real.cos a * Real.cos p))]

/-- C1 amended: the source applies no clamp, but over exact real
arithmetic the argument handed to arccosine always lies in the closed
interval from -1 to 1, and the distance annotation evaluates to exactly 0
when the query point equals the pickup point. The clamp the spec demands
would matter only for floating-point rounding, which this real-valued
model cannot exhibit. -/
theorem distance_acos_arg_in_range_and_self_distance_zero
    (lat lon plat plon : ℝ) :
    -1 ≤ SqlExpr.evalAt lat lon plat plon acosArgExpr ∧
    SqlExpr.evalAt lat lon plat plon acosArgExpr ≤ 1 ∧
    SqlExpr.evalAt lat lon lat lon distance_to_pickup_expr = 0 := by
  have hb := cos_combination_bounds (lat * Real.pi / 180) (plat * Real.pi / 180)
    (plon * Real.pi / 180 - lon * Real.pi / 180)
  refine ⟨?_, ?_, ?_⟩
  · simpa [acosArgExpr, SqlExpr.evalAt] using hb.1
  · simpa [acosArgExpr, SqlExpr.evalAt] using hb.2
  · have harg : SqlExpr.evalAt lat lon lat lon acosArgExpr = 1 := by
      simp only [acosArgExpr, SqlExpr.evalAt, sub_self, Real.cos_zero, mul_one]
      rw [← Real.cos_sub, sub_self, Real.cos_zero]
    have hd : SqlExpr.evalAt lat lon lat lon distance_to_pickup_expr =
        ((6371 : ℚ) : ℝ) * Real.arccos (SqlExpr.evalAt lat lon lat lon acosArgExpr) :=
      rfl
    rw [hd, harg, Real.arccos_one, mul_zero]

/-- C3 amended: a non-distance ordering parameter always yields a
pickup-time order, descending by default; a distance ordering parameter
yields the requested distance order when both geolocation parameters
parse, and otherwise leaves the queryset with no ordering at all (it does
not fall back to the `-pickup_time` default). -/
theorem effective_ordering_characterization (p : ListQueryParams) :
    effectiveOrdering p = orderingSpec p := by
  rcases p with ⟨o, la, lo⟩
  by_cases hd : isDistanceOrderingParam o = true
  · have hmem : o = some "distance" ∨ o = some "distance_to_pickup" ∨
        o = some "-distance" ∨ o = some "-distance_to_pickup" := by
      cases o with
      | none => simp [isDistanceOrderingParam] at hd
      | some s =>
        simp only [isDistanceOrderingParam, Bool.or_eq_true, beq_iff_eq] at hd
        rcases hd with ((h | h) | h) | h <;> subst h <;> tauto
    simp only [effectiveOrdering, filterQuerysetOrdering, orderingSpec, hd,
      if_true]
    cases la <;> cases lo <;> simp only [getQuerysetOrdering]
    by_cases h1 : o = some "distance" ∨ o = some "distance_to_pickup"
    · simp [h1]
    · have h2 : o = some "-distance" ∨ o = some "-distance_to_pickup" := by
        tauto
      have h2d : (o = some "-distance" ∨ o = some "-distance_to_pickup") = True :=
        eq_true h2
      simp [h1, h2d]
  · simp only [effectiveOrdering, filterQuerysetOrdering, orderingSpec, hd]
    by_cases hpt : o = some "pickup_time"
    · simp [hpt]
    · by_cases hpt2 : o = some "-pickup_time" <;> simp [hpt, hpt2]

theorem sampleRideRec_write_valid :
    rideValidate (dataOfRecord sampleRideRec) none 0 = none := by
  norm_num [rideValidate, dataOfRecord, sampleRideRec, validateCoordinatesErr,
    coordRangeErr, locationDifferenceErr, userRolesErr, pickupTimeErr, pyAbs,
    fiveMinutes, Option.orElse]

/-- C4 amended: for a stored ride that validated cleanly when written, a
partial update touching only `status` re-runs none of the coordinate,
location-difference or role checks to a different outcome — the whole
validation reduces to the pickup-time recency check against the fresh
validation instant, which is the one check that can newly reject. -/
theorem status_only_update_reduces_to_time_check
    (inst : RideRec) (t0 now : Int)
    (hvalid : rideValidate (dataOfRecord inst) none t0 = none) :
    rideValidate statusOnlyData (some inst) now =
      pickupTimeErr (some inst.pickup_time) now := by
  simp only [rideValidate, dataOfRecord, someOrElse, Option.map_none',
    Option.map_some', orElse_eq_none_iff] at hvalid
  obtain ⟨-, hloc, hroles, -⟩ := hvalid
  simp only [rideValidate, statusOnlyData, noneOrElse, Option.map_some']
  have hc : validateCoordinatesErr ⟨none, none, none, none, none, none, none⟩
      = none := rfl
  simp only [hc, hloc, hroles, noneOrElse]

/-- Closed instance of the C4 amended theorem: the status-only update of
the fixture record at instant 0 reduces to its pickup-time check. -/
theorem status_only_update_reduces_to_time_check_witness :
    rideValidate statusOnlyData (some sampleRideRec) 0 =
      pickupTimeErr (some sampleRideRec.pickup_time) 0 :=
  status_only_update_reduces_to_time_check sampleRideRec 0 0
    sampleRideRec_write_valid

end Wingz
